import Mathlib

/-!
# Verification of the PDF Address Mover region-processing logic

Shallow embedding of the coordinate-transform and region-processing slice of
the `shipping-address-mover` repository:

* `src/utils/pdfProcessor.js` — the constants `MM_TO_PT`/`PT_TO_MM`, the
  capture function `extractRegionAsImage`, and the mutation pipeline
  `processPdf`;
* `src/App.vue` — the batch drivers `processOne`/`processAll`;
* `src/components/PdfPreview.vue` — the draw-gesture handler `onDrawUp`
  with its helpers `canvasCoords` and `pxToMm`, and the render scale
  computed in `render`/`renderPageToCanvas`.

Numbers are modelled as exact rationals (`ℚ`); the JavaScript `Math.round`
is modelled explicitly (`jsRound`), and the browser/library behaviours the
code relies on (a zero-area canvas encodes to `null`, an out-of-range page
request rejects, `drawImage` silently clips an out-of-bounds source crop)
are modelled as the branches of the embedded functions, each with a comment
pointing at the behaviour it reflects.  Side effects on the pdf-lib document
writer are reified as a trace of `WriterOp` values in call order, and the
batch driver's user-visible effects as a trace of `BatchEvent` values.
-/

namespace AddressMover

/-- JavaScript rounding: `Math.round` rounds half toward positive infinity,
i.e. `⌊x + 1/2⌋` (not half away from zero). -/
def jsRound (q : ℚ) : ℤ := ⌊q + 1/2⌋

/-- Constant `export const MM_TO_PT = 72 / 25.4` (pdfProcessor.js line 8). -/
def MM_TO_PT : ℚ := 72 / 25.4

/-- Constant `export const PT_TO_MM = 25.4 / 72` (pdfProcessor.js line 9). -/
def PT_TO_MM : ℚ := 25.4 / 72

/-- The Coordinate Transform's `mmToPoints`: the code multiplies a millimeter
value by `MM_TO_PT` wherever it converts (e.g. `srcMm.x * MM_TO_PT`). -/
def mmToPoints (mm : ℚ) : ℚ := mm * MM_TO_PT

/-- The Coordinate Transform's `pointsToMm`: the code multiplies a point value
by `PT_TO_MM` wherever it converts back (e.g. `vp.width * PT_TO_MM`). -/
def pointsToMm (pt : ℚ) : ℚ := pt * PT_TO_MM

/-- A rectangle in millimeters, origin top-left: `{x, y, width, height}`. -/
structure RectMm where
  x : ℚ
  y : ℚ
  width : ℚ
  height : ℚ
deriving Repr, DecidableEq

/-- A destination point in millimeters, origin top-left: `{x, y}`. -/
structure PointMm where
  x : ℚ
  y : ℚ
deriving Repr, DecidableEq

/-- The slice of a parsed PDF document the processing code observes: its page
count (`pdfDoc.numPages` / `doc.getPages().length`) and the target page's
media-box size in points (`page.getViewport({scale:1})` /
`page.getSize()`). -/
structure PdfDocModel where
  numPages : ℕ
  pageWidthPt : ℚ
  pageHeightPt : ℚ
deriving Repr, DecidableEq

/-- The errors the JavaScript actually throws on the paths modelled here:
pdf.js rejects an out-of-range `getPage` request, and reading a property of
the `null` blob produced by encoding a zero-area canvas throws a
`TypeError`.  The repository defines no error taxonomy of its own (no
`InvalidRegion`, no `PageIndexOutOfRange` anywhere in the source). -/
inductive JsError where
  | invalidPageRequest
  | typeError
deriving Repr, DecidableEq

/-- Result of `extractRegionAsImage`: the full-page raster at the 4× scale,
the pixel crop taken out of it, the dimensions of the produced image buffer
and its encoding MIME type. -/
structure CaptureResult where
  rasterW : ℤ
  rasterH : ℤ
  cropX : ℤ
  cropY : ℤ
  cropW : ℤ
  cropH : ℤ
  imgW : ℤ
  imgH : ℤ
  mime : String
deriving Repr, DecidableEq

/-- Reflection rule for the `unsigned long` canvas dimension attributes: an
out-of-range (negative) assigned value falls back to the default — 300 for
`width`, 150 for `height` — so the canvas is only zero-area when the
assigned value is exactly zero. -/
def canvasDim (v dflt : ℤ) : ℤ := if v < 0 then dflt else v

/-- Model of `extractRegionAsImage(pdfDoc, pageNum, srcMm)` (pdfProcessor.js
lines 43–65).

* `page.getPage(pageNum)` rejects when `pageNum` is out of range
  (pdf.js: 1-indexed);
* `S = 4`; the full canvas is sized to the scale-4 viewport
  (`full.width = vp.width`, truncated to an integer by the canvas setter);
* `cx,cy,cw,ch` are `Math.round(srcMm.* * MM_TO_PT * S)`;
* the crop canvas dimensions are assigned `cw` and `ch`; a negative value
  falls back to the 300/150 canvas default (`canvasDim`), so only an
  exactly-zero value gives a zero-area canvas;
* `drawImage` clips an out-of-bounds source region silently and accepts a
  negative source width/height, so no bounds check happens here;
* `crop.toBlob(r, 'image/png')` yields `null` for a zero-area canvas — and
  only then — and the subsequent `blob.arrayBuffer()` throws a `TypeError`;
  otherwise the PNG buffer has the crop canvas's dimensions. -/
def extractRegionAsImage (pdfDoc : PdfDocModel) (pageNum : ℕ) (srcMm : RectMm) :
    Except JsError CaptureResult :=
  if pageNum < 1 ∨ pdfDoc.numPages < pageNum then
    .error .invalidPageRequest
  else
    let S : ℚ := 4
    let cx := jsRound (srcMm.x * MM_TO_PT * S)
    let cy := jsRound (srcMm.y * MM_TO_PT * S)
    let cw := jsRound (srcMm.width * MM_TO_PT * S)
    let ch := jsRound (srcMm.height * MM_TO_PT * S)
    let cwCanvas := canvasDim cw 300
    let chCanvas := canvasDim ch 150
    if cwCanvas = 0 ∨ chCanvas = 0 then
      .error .typeError
    else
      .ok { rasterW := ⌊pdfDoc.pageWidthPt * S⌋
            rasterH := ⌊pdfDoc.pageHeightPt * S⌋
            cropX := cx, cropY := cy, cropW := cw, cropH := ch
            imgW := cwCanvas, imgH := chCanvas
            mime := "image/png" }

/-- One call into the pdf-lib document writer, in call order. -/
inductive WriterOp where
  | load
  | drawRectangle (x y width height : ℚ) (r g b : ℚ) (borderWidth : ℚ)
  | embedPng (img : CaptureResult)
  | drawImage (img : CaptureResult) (x y width height : ℚ)
  | save
deriving Repr, DecidableEq

/-- The observable outcome of one `processPdf` call: the document-writer
operations that were invoked, in order, and the error the call rejected
with (if any). -/
structure ProcResult where
  ops : List WriterOp
  err : Option JsError
deriving Repr, DecidableEq

/-- Model of
`processPdf(originalBytes, previewDoc, srcMm, dstMm, coverRect, pageNum)`
(pdfProcessor.js lines 67–106).  `originalBytes` and `previewDoc` come from
the same file, so one `PdfDocModel` stands for both; the extra seventh
argument `App.vue` passes is ignored by the function's parameter list.

Order of effects in the source: `extractRegionAsImage` first (so a failure
there happens before any writer call), then `PDFDocument.load`, the source
white-out `drawRectangle` with `pad = 1`, the optional cover
`drawRectangle` without padding, `embedPng`, `drawImage` at the
destination, `doc.save()`. -/
def processPdf (pdfDoc : PdfDocModel) (srcMm : RectMm) (dstMm : PointMm)
    (coverRect : Option RectMm) (pageNum : ℕ := 1) : ProcResult :=
  match extractRegionAsImage pdfDoc pageNum srcMm with
  | .error e => { ops := [], err := some e }
  | .ok img =>
    -- `doc.getPages()[pageNum - 1]` is `undefined` past the end; the
    -- subsequent `page.getSize()` would throw a TypeError.  (Unreachable:
    -- `extractRegionAsImage` already rejected such a `pageNum`.)
    if pdfDoc.numPages < pageNum then
      { ops := [.load], err := some .typeError }
    else
      let H := pdfDoc.pageHeightPt
      let sX := srcMm.x * MM_TO_PT
      let sW := srcMm.width * MM_TO_PT
      let sH := srcMm.height * MM_TO_PT
      let sY := H - (srcMm.y + srcMm.height) * MM_TO_PT
      let pad : ℚ := 1
      let coverOps : List WriterOp :=
        match coverRect with
        | some c =>
            [.drawRectangle (c.x * MM_TO_PT) (H - (c.y + c.height) * MM_TO_PT)
              (c.width * MM_TO_PT) (c.height * MM_TO_PT) 1 1 1 0]
        | none => []
      let dX := dstMm.x * MM_TO_PT
      let dY := H - (dstMm.y + srcMm.height) * MM_TO_PT
      { ops := [WriterOp.load,
                .drawRectangle (sX - pad) (sY - pad) (sW + 2 * pad) (sH + 2 * pad) 1 1 1 0]
               ++ coverOps
               ++ [.embedPng img, .drawImage img dX dY sW sH, .save],
        err := none }

/-! ## Batch driver (`src/App.vue`) -/

/-- The per-file state App.vue keeps in `files`:
`{ name, arrayBuffer, pdfDoc, sourceRect, destPoint, coverRect }`.
`arrayBuffer` and `pdfDoc` come from the same PDF, so one `PdfDocModel`
stands for both. -/
structure LoadedFile where
  name : String
  doc : PdfDocModel
  sourceRect : Option RectMm
  destPoint : Option PointMm
  coverRect : Option RectMm
deriving Repr, DecidableEq

/-- Effect of the regex `/\.pdf$/i`: drop a trailing `.pdf` (the `p`, `d`,
`f` case-insensitive), stated structurally on the character list so that it
evaluates in the kernel. -/
def stripPdfExt (cs : List Char) : List Char :=
  match cs.reverse with
  | c1 :: c2 :: c3 :: c4 :: rest =>
    if c4 = '.' ∧ c3.toLower = 'p' ∧ c2.toLower = 'd' ∧ c1.toLower = 'f' then
      rest.reverse
    else cs
  | _ => cs

/-- Download filename `f.name.replace(/\.pdf$/i, '') + '-moved_address.pdf'`
(App.vue line 145). -/
def downloadName (n : String) : String :=
  String.mk (stripPdfExt n.data) ++ "-moved_address.pdf"

/-- The ways a `processOne` call can reject: its own guard
(`"<name>" has no source or destination set`) or an exception escaping
`processPdf`, which `processCurrent`/`processAll` render naming the file. -/
inductive ProcError where
  | notReady (name : String)
  | js (name : String) (e : JsError)
deriving Repr, DecidableEq

/-- Model of `processOne(i)` (App.vue lines 133–146): throw if the file has no
source or destination, otherwise run `processPdf` on this file's own
coordinates (page 1; the seventh `showFoldMarks` argument is ignored by
`processPdf`) and download the result under the derived name. -/
def processOne (f : LoadedFile) : Except ProcError String :=
  match f.sourceRect, f.destPoint with
  | some s, some d =>
    match (processPdf f.doc s d f.coverRect 1).err with
    | some e => .error (.js f.name e)
    | none => .ok (downloadName f.name)
  | _, _ => .error (.notReady f.name)

/-- Boolean view of `processOne` succeeding. -/
def procOk (f : LoadedFile) : Bool :=
  match processOne f with
  | .ok _ => true
  | .error _ => false

/-- The user-visible effects of a batch run, in order: a download per
successfully processed file, and at most one final `Batch failed` message. -/
inductive BatchEvent where
  | download (filename : String)
  | batchFailed (e : ProcError)
deriving Repr, DecidableEq

/-- The `ready` list of `processAll` (App.vue line 157): the files that have both
a source rectangle and a destination point, in list order. -/
def readyFiles (files : List LoadedFile) : List LoadedFile :=
  files.filter fun f => f.sourceRect.isSome && f.destPoint.isSome

/-- The `for` loop of `processAll` (App.vue lines 161–165): process the
ready files one at a time in order inside a single `try`; the first
exception jumps to the `catch`, which reports `Batch failed` and ends the
run (the 400 ms pacing delay between files has no observable effect and is
not modelled). -/
def runBatch : List LoadedFile → List BatchEvent
  | [] => []
  | f :: rest =>
    match processOne f with
    | .ok name => .download name :: runBatch rest
    | .error e => [.batchFailed e]

/-- Model of `processAll()` (App.vue lines 156–170): filter to the ready files, then
run the fail-fast loop (an empty ready list returns immediately). -/
def processAll (files : List LoadedFile) : List BatchEvent :=
  runBatch (readyFiles files)

/-! ## Preview gesture handling (`src/components/PdfPreview.vue`) -/

/-- Width budget of `render()` (PdfPreview.vue line 89):
`Math.max(400, Math.min(container.clientWidth - 40, 1400))`. -/
def previewMaxWidth (clientWidth : ℚ) : ℚ :=
  max 400 (min (clientWidth - 40) 1400)

/-- Render scale chosen by `renderPageToCanvas` (pdfProcessor.js line 30):
`Math.min(maxWidth / base.width, 2)`. -/
def renderScale (maxWidth baseWidthPt : ℚ) : ℚ :=
  min (maxWidth / baseWidthPt) 2

/-- Model of `canvasCoords(e)` (PdfPreview.vue lines 45–52): the mouse position
relative to the canvas, clamped into `[0, r.width] × [0, r.height]`. -/
def canvasCoords (clientX clientY rLeft rTop rWidth rHeight : ℚ) : ℚ × ℚ :=
  (max 0 (min (clientX - rLeft) rWidth),
   max 0 (min (clientY - rTop) rHeight))

/-- Model of `pxToMm(px)` (PdfPreview.vue lines 42–43):
`Math.round(px / renderInfo.scale * PT_TO_MM * 10) / 10` — millimeters
rounded to one decimal place. -/
def pxToMm (scale px : ℚ) : ℚ :=
  (jsRound (px / scale * PT_TO_MM * 10) : ℚ) / 10

/-- The emitting branch of `onDrawUp()` (PdfPreview.vue lines 129–144):
normalize the gesture's two corners, and emit a `source-selected` rectangle
only when the drawn pixel region exceeds 10 px in both dimensions. -/
def onDrawUp (scale : ℚ) (drawStart drawCurrent : ℚ × ℚ) : Option RectMm :=
  let x1 := min drawStart.1 drawCurrent.1
  let y1 := min drawStart.2 drawCurrent.2
  let x2 := max drawStart.1 drawCurrent.1
  let y2 := max drawStart.2 drawCurrent.2
  if 10 < x2 - x1 ∧ 10 < y2 - y1 then
    some { x := pxToMm scale x1, y := pxToMm scale y1,
           width := pxToMm scale (x2 - x1), height := pxToMm scale (y2 - y1) }
  else
    none

/-! ## Helper lemmas about the model -/

lemma jsRound_nonneg {q : ℚ} (h : 0 ≤ q) : 0 ≤ jsRound q := by
  unfold jsRound
  exact Int.le_floor.mpr (by push_cast; linarith)

lemma jsRound_nonpos {q : ℚ} (h : q ≤ 0) : jsRound q ≤ 0 := by
  unfold jsRound
  have hlt : ⌊q + 1/2⌋ < 1 := Int.floor_lt.mpr (by push_cast; linarith)
  omega

lemma jsRound_pos {q : ℚ} (h : 1/2 ≤ q) : 0 < jsRound q := by
  unfold jsRound
  have hle : (1 : ℤ) ≤ ⌊q + 1/2⌋ := Int.le_floor.mpr (by push_cast; linarith)
  omega

/-- Evaluation rule for `jsRound` at concrete rationals. -/
lemma jsRound_eq (q : ℚ) (n : ℤ) (h1 : (n : ℚ) ≤ q + 1/2) (h2 : q + 1/2 < n + 1) :
    jsRound q = n := by
  unfold jsRound
  exact Int.floor_eq_iff.mpr ⟨h1, by linarith⟩

/-- Evaluation rule for `Int.floor` at concrete rationals. -/
lemma floorQ_eq (q : ℚ) (n : ℤ) (h1 : (n : ℚ) ≤ q) (h2 : q < n + 1) : ⌊q⌋ = n :=
  Int.floor_eq_iff.mpr ⟨h1, by linarith⟩

/-- Preconditions under which the capture step succeeds: `pageNum` is a valid
1-indexed page and the rounded pixel crop has positive width and height. -/
def validCapture (pdfDoc : PdfDocModel) (pageNum : ℕ) (srcMm : RectMm) : Prop :=
  1 ≤ pageNum ∧ pageNum ≤ pdfDoc.numPages ∧
    0 < jsRound (srcMm.width * MM_TO_PT * 4) ∧ 0 < jsRound (srcMm.height * MM_TO_PT * 4)

/-- The capture record `extractRegionAsImage` produces on success. -/
def capture (pdfDoc : PdfDocModel) (srcMm : RectMm) : CaptureResult :=
  { rasterW := ⌊pdfDoc.pageWidthPt * 4⌋
    rasterH := ⌊pdfDoc.pageHeightPt * 4⌋
    cropX := jsRound (srcMm.x * MM_TO_PT * 4)
    cropY := jsRound (srcMm.y * MM_TO_PT * 4)
    cropW := jsRound (srcMm.width * MM_TO_PT * 4)
    cropH := jsRound (srcMm.height * MM_TO_PT * 4)
    imgW := jsRound (srcMm.width * MM_TO_PT * 4)
    imgH := jsRound (srcMm.height * MM_TO_PT * 4)
    mime := "image/png" }

lemma canvasDim_of_pos {v d : ℤ} (h : 0 < v) : canvasDim v d = v := by
  unfold canvasDim
  rw [if_neg (by omega)]

lemma extractRegionAsImage_ok (pdfDoc : PdfDocModel) (pageNum : ℕ) (s : RectMm)
    (h : validCapture pdfDoc pageNum s) :
    extractRegionAsImage pdfDoc pageNum s = .ok (capture pdfDoc s) := by
  obtain ⟨h1, h2, hw, hh⟩ := h
  simp only [extractRegionAsImage]
  rw [if_neg (by omega), canvasDim_of_pos hw, canvasDim_of_pos hh, if_neg (by omega)]
  rfl

/-- On valid input the pipeline performs exactly the six writer calls, in
order, with the coordinates computed by the source. -/
lemma processPdf_ok (pdfDoc : PdfDocModel) (pageNum : ℕ) (s : RectMm) (d : PointMm)
    (cov : Option RectMm) (h : validCapture pdfDoc pageNum s) :
    processPdf pdfDoc s d cov pageNum =
      { ops := [WriterOp.load,
                .drawRectangle (s.x * MM_TO_PT - 1)
                  (pdfDoc.pageHeightPt - (s.y + s.height) * MM_TO_PT - 1)
                  (s.width * MM_TO_PT + 2) (s.height * MM_TO_PT + 2) 1 1 1 0]
               ++ (match cov with
                   | some c =>
                     [WriterOp.drawRectangle (c.x * MM_TO_PT)
                       (pdfDoc.pageHeightPt - (c.y + c.height) * MM_TO_PT)
                       (c.width * MM_TO_PT) (c.height * MM_TO_PT) 1 1 1 0]
                   | none => [])
               ++ [.embedPng (capture pdfDoc s),
                   .drawImage (capture pdfDoc s) (d.x * MM_TO_PT)
                     (pdfDoc.pageHeightPt - (d.y + s.height) * MM_TO_PT)
                     (s.width * MM_TO_PT) (s.height * MM_TO_PT),
                   .save],
        err := none } := by
  have h2 := h.2.1
  simp only [processPdf, extractRegionAsImage_ok pdfDoc pageNum s h]
  rw [if_neg (by omega)]
  norm_num

/-- With a source width or height of exactly zero, the rounded crop
dimension is zero, the zero-area crop canvas encodes to `null`, and the
call fails with the generic `TypeError` before any writer operation.
(Strictly negative sizes do not take this path: the canvas dimension falls
back to its 300/150 default and processing proceeds.) -/
lemma processPdf_zeroSize (pdfDoc : PdfDocModel) (pageNum : ℕ) (s : RectMm) (d : PointMm)
    (cov : Option RectMm) (h1 : 1 ≤ pageNum) (h2 : pageNum ≤ pdfDoc.numPages)
    (hs : s.width = 0 ∨ s.height = 0) :
    processPdf pdfDoc s d cov pageNum = { ops := [], err := some JsError.typeError } := by
  have hzero : canvasDim (jsRound (s.width * MM_TO_PT * 4)) 300 = 0 ∨
      canvasDim (jsRound (s.height * MM_TO_PT * 4)) 150 = 0 := by
    rcases hs with hw | hh
    · left
      rw [hw]
      norm_num [jsRound, canvasDim]
    · right
      rw [hh]
      norm_num [jsRound, canvasDim]
  have hex : extractRegionAsImage pdfDoc pageNum s = .error .typeError := by
    simp only [extractRegionAsImage]
    rw [if_neg (by omega), if_pos hzero]
  simp only [processPdf, hex]

/-- With an out-of-range page number the renderer's `getPage` rejects first,
before any writer operation. -/
lemma processPdf_pageOutOfRange (pdfDoc : PdfDocModel) (pageNum : ℕ) (s : RectMm)
    (d : PointMm) (cov : Option RectMm) (h : pdfDoc.numPages < pageNum) :
    processPdf pdfDoc s d cov pageNum =
      { ops := [], err := some JsError.invalidPageRequest } := by
  have hex : extractRegionAsImage pdfDoc pageNum s = .error .invalidPageRequest := by
    simp only [extractRegionAsImage]
    rw [if_pos (Or.inr h)]
  simp only [processPdf, hex]

/-! ## Concrete inputs used by witnesses and counterexamples -/

/-- An A4-like single-page document: 595 × 842 points. -/
def demoDoc : PdfDocModel := { numPages := 1, pageWidthPt := 595, pageHeightPt := 842 }

/-- A typical address selection, 40 × 15 mm at (10, 10) mm. -/
def srcA : RectMm := { x := 10, y := 10, width := 40, height := 15 }

/-- A destination point at (10, 150) mm. -/
def dstA : PointMm := { x := 10, y := 150 }

/-- A cover rectangle, 30 × 20 mm at (100, 5) mm. -/
def covA : RectMm := { x := 100, y := 5, width := 30, height := 20 }

/-- A zero-width source rectangle. -/
def srcZero : RectMm := { x := 10, y := 10, width := 0, height := 15 }

/-- A source rectangle whose 4×-scale pixel crop runs past the right edge of
the 2380-pixel-wide raster of `demoDoc`. -/
def oobSrc : RectMm := { x := 200, y := 10, width := 40, height := 15 }

/-- A source rectangle with strictly negative width. -/
def negSrc : RectMm := { x := 10, y := 10, width := -5, height := 15 }

/-- The capture produced for `negSrc`: the rounded crop width is −57, so the
crop canvas width falls back to the 300-pixel default and the call
succeeds. -/
def negCapture : CaptureResult :=
  { rasterW := 2380, rasterH := 3368, cropX := 113, cropY := 113,
    cropW := -57, cropH := 170, imgW := 300, imgH := 170, mime := "image/png" }

lemma validCapture_srcA : validCapture demoDoc 1 srcA :=
  ⟨le_refl 1, le_refl 1,
   jsRound_pos (by norm_num [srcA, MM_TO_PT]),
   jsRound_pos (by norm_num [srcA, MM_TO_PT])⟩

lemma validCapture_oobSrc : validCapture demoDoc 1 oobSrc :=
  ⟨le_refl 1, le_refl 1,
   jsRound_pos (by norm_num [oobSrc, MM_TO_PT]),
   jsRound_pos (by norm_num [oobSrc, MM_TO_PT])⟩

/-- Selector for the image-drawing writer call. -/
def isDrawImage : WriterOp → Bool
  | .drawImage .. => true
  | _ => false

/-- Selector for the rectangle-drawing writer calls. -/
def isDrawRectangle : WriterOp → Bool
  | .drawRectangle .. => true
  | _ => false

/-! ## Claims -/

/-- C1, counterexample: two refutations of the claim as stated.  With a
strictly negative source width (−5 mm, rounded crop width −57) the crop
canvas width falls back to the 300-pixel default, so the call does not fail
at all — no error, document writer invoked.  With a source rectangle whose
computed pixel crop runs partially outside the rendered raster (crop ends
at pixel 2722 on a 2380-pixel-wide raster), the call likewise completes
with no error and invokes the document writer.  Both contradict the claim
that such calls raise `InvalidRegion` and never reach the writer. -/
theorem c1_counterexample :
    negSrc.width < 0 ∧
    extractRegionAsImage demoDoc 1 negSrc = Except.ok negCapture ∧
    (processPdf demoDoc negSrc dstA none 1).err = none ∧
    (processPdf demoDoc negSrc dstA none 1).ops ≠ [] ∧
    extractRegionAsImage demoDoc 1 oobSrc = Except.ok (capture demoDoc oobSrc) ∧
    (capture demoDoc oobSrc).cropX + (capture demoDoc oobSrc).cropW = 2722 ∧
    (capture demoDoc oobSrc).rasterW = 2380 ∧
    (capture demoDoc oobSrc).rasterW <
      (capture demoDoc oobSrc).cropX + (capture demoDoc oobSrc).cropW ∧
    (processPdf demoDoc oobSrc dstA none 1).err = none ∧
    (processPdf demoDoc oobSrc dstA none 1).ops ≠ [] := by
  have hnx : jsRound (negSrc.x * MM_TO_PT * 4) = 113 :=
    jsRound_eq _ 113 (by norm_num [negSrc, MM_TO_PT]) (by norm_num [negSrc, MM_TO_PT])
  have hny : jsRound (negSrc.y * MM_TO_PT * 4) = 113 :=
    jsRound_eq _ 113 (by norm_num [negSrc, MM_TO_PT]) (by norm_num [negSrc, MM_TO_PT])
  have hnw : jsRound (negSrc.width * MM_TO_PT * 4) = -57 :=
    jsRound_eq _ (-57) (by norm_num [negSrc, MM_TO_PT]) (by norm_num [negSrc, MM_TO_PT])
  have hnh : jsRound (negSrc.height * MM_TO_PT * 4) = 170 :=
    jsRound_eq _ 170 (by norm_num [negSrc, MM_TO_PT]) (by norm_num [negSrc, MM_TO_PT])
  have hneg : extractRegionAsImage demoDoc 1 negSrc = Except.ok negCapture := by
    simp only [extractRegionAsImage]
    rw [if_neg (by norm_num [demoDoc]), hnx, hny, hnw, hnh]
    rw [show canvasDim (-57) 300 = 300 by norm_num [canvasDim]]
    rw [show canvasDim 170 150 = 170 by norm_num [canvasDim]]
    rw [if_neg (by norm_num)]
    rw [floorQ_eq (demoDoc.pageWidthPt * 4) 2380 (by norm_num [demoDoc]) (by norm_num [demoDoc])]
    rw [floorQ_eq (demoDoc.pageHeightPt * 4) 3368 (by norm_num [demoDoc]) (by norm_num [demoDoc])]
    rfl
  have hx : (capture demoDoc oobSrc).cropX = 2268 :=
    jsRound_eq _ 2268 (by norm_num [oobSrc, MM_TO_PT]) (by norm_num [oobSrc, MM_TO_PT])
  have hw : (capture demoDoc oobSrc).cropW = 454 :=
    jsRound_eq _ 454 (by norm_num [oobSrc, MM_TO_PT]) (by norm_num [oobSrc, MM_TO_PT])
  have hr : (capture demoDoc oobSrc).rasterW = 2380 :=
    floorQ_eq _ 2380 (by norm_num [demoDoc]) (by norm_num [demoDoc])
  refine ⟨by norm_num [negSrc], hneg, ?_, ?_,
    extractRegionAsImage_ok demoDoc 1 oobSrc validCapture_oobSrc, ?_, hr, ?_, ?_, ?_⟩
  · simp only [processPdf, hneg]
    rw [if_neg (by norm_num [demoDoc])]
  · simp only [processPdf, hneg]
    rw [if_neg (by norm_num [demoDoc])]
    simp
  · rw [hx, hw]; norm_num
  · rw [hx, hw, hr]; norm_num
  · rw [processPdf_ok demoDoc 1 oobSrc dstA none validCapture_oobSrc]
  · rw [processPdf_ok demoDoc 1 oobSrc dstA none validCapture_oobSrc]
    simp

/-- C1, amended: a source rectangle with width or height exactly zero makes
the call fail before any document-writer operation is invoked, but with the
generic `TypeError` from encoding the zero-area crop canvas, not a
dedicated `InvalidRegion` error; a strictly negative width or height is not
rejected (the canvas dimension falls back to its 300/150 default and
processing proceeds), and an out-of-bounds crop is not detected at all. -/
theorem c1_invalid_region (pdfDoc : PdfDocModel) (pageNum : ℕ) (s : RectMm) (d : PointMm)
    (cov : Option RectMm) (h1 : 1 ≤ pageNum) (h2 : pageNum ≤ pdfDoc.numPages)
    (hs : s.width = 0 ∨ s.height = 0) :
    processPdf pdfDoc s d cov pageNum = { ops := [], err := some JsError.typeError } :=
  processPdf_zeroSize pdfDoc pageNum s d cov h1 h2 hs

/-- C1, witness: the amended statement at a concrete zero-width input. -/
theorem c1_invalid_region_witness :
    (1 ≤ 1 ∧ 1 ≤ demoDoc.numPages ∧ (srcZero.width = 0 ∨ srcZero.height = 0)) ∧
    processPdf demoDoc srcZero dstA none 1 =
      { ops := [], err := some JsError.typeError } :=
  ⟨⟨le_refl 1, le_refl 1, Or.inl rfl⟩,
   c1_invalid_region demoDoc 1 srcZero dstA none (le_refl 1) (le_refl 1) (Or.inl rfl)⟩

/-- C2: on valid input the pipeline draws exactly one image, at
`(dx·MM_TO_PT, H − (dy + h)·MM_TO_PT)`, with drawn width and height equal to
the source rectangle's width and height in points, for every destination
point. -/
theorem c2_destination_size_invariant (pdfDoc : PdfDocModel) (pageNum : ℕ) (s : RectMm)
    (d : PointMm) (cov : Option RectMm) (h : validCapture pdfDoc pageNum s) :
    (processPdf pdfDoc s d cov pageNum).err = none ∧
    (processPdf pdfDoc s d cov pageNum).ops.filter isDrawImage =
      [WriterOp.drawImage (capture pdfDoc s) (d.x * MM_TO_PT)
        (pdfDoc.pageHeightPt - (d.y + s.height) * MM_TO_PT)
        (s.width * MM_TO_PT) (s.height * MM_TO_PT)] := by
  rw [processPdf_ok pdfDoc pageNum s d cov h]
  refine ⟨rfl, ?_⟩
  cases cov <;> simp [isDrawImage]

/-- C2, witness: destination draw at a concrete input. -/
theorem c2_witness :
    validCapture demoDoc 1 srcA ∧
    ((processPdf demoDoc srcA dstA none 1).err = none ∧
     (processPdf demoDoc srcA dstA none 1).ops.filter isDrawImage =
      [WriterOp.drawImage (capture demoDoc srcA) (dstA.x * MM_TO_PT)
        (demoDoc.pageHeightPt - (dstA.y + srcA.height) * MM_TO_PT)
        (srcA.width * MM_TO_PT) (srcA.height * MM_TO_PT)]) :=
  ⟨validCapture_srcA,
   c2_destination_size_invariant demoDoc 1 srcA dstA none validCapture_srcA⟩

/-- C3: the second writer call (right after `load`) is the source white-out:
an opaque white filled rectangle at the source rectangle's point-space
bounds expanded by exactly one point of padding on all four sides. -/
theorem c3_source_whiteout (pdfDoc : PdfDocModel) (pageNum : ℕ) (s : RectMm)
    (d : PointMm) (cov : Option RectMm) (h : validCapture pdfDoc pageNum s) :
    (processPdf pdfDoc s d cov pageNum).ops[1]? =
      some (WriterOp.drawRectangle (s.x * MM_TO_PT - 1)
        (pdfDoc.pageHeightPt - (s.y + s.height) * MM_TO_PT - 1)
        (s.width * MM_TO_PT + 2) (s.height * MM_TO_PT + 2) 1 1 1 0) := by
  rw [processPdf_ok pdfDoc pageNum s d cov h]
  cases cov <;> rfl

/-- C3, witness: source white-out at a concrete input. -/
theorem c3_witness :
    validCapture demoDoc 1 srcA ∧
    (processPdf demoDoc srcA dstA none 1).ops[1]? =
      some (WriterOp.drawRectangle (srcA.x * MM_TO_PT - 1)
        (demoDoc.pageHeightPt - (srcA.y + srcA.height) * MM_TO_PT - 1)
        (srcA.width * MM_TO_PT + 2) (srcA.height * MM_TO_PT + 2) 1 1 1 0) :=
  ⟨validCapture_srcA, c3_source_whiteout demoDoc 1 srcA dstA none validCapture_srcA⟩

/-- C4: converting millimeters to points and back is exact over the
rationals, hence in particular within the claimed 1e-9 tolerance. -/
theorem c4_mm_pt_roundtrip (m : ℚ) :
    pointsToMm (mmToPoints m) = m ∧
    |pointsToMm (mmToPoints m) - m| ≤ 1 / 1000000000 := by
  have h : pointsToMm (mmToPoints m) = m := by
    unfold pointsToMm mmToPoints MM_TO_PT PT_TO_MM
    norm_num
    ring
  refine ⟨h, ?_⟩
  rw [h, sub_self, abs_zero]
  norm_num

/-- C7: on valid input the capture step renders the full page at the fixed
4× supersampling scale, crops at the rounded pixel bounds
`round(mm · MM_TO_PT · 4)`, produces an image buffer sized exactly to the
crop, and encodes it as PNG. -/
theorem c7_capture_geometry (pdfDoc : PdfDocModel) (pageNum : ℕ) (s : RectMm)
    (h : validCapture pdfDoc pageNum s) :
    extractRegionAsImage pdfDoc pageNum s = .ok
      { rasterW := ⌊pdfDoc.pageWidthPt * 4⌋
        rasterH := ⌊pdfDoc.pageHeightPt * 4⌋
        cropX := jsRound (s.x * MM_TO_PT * 4)
        cropY := jsRound (s.y * MM_TO_PT * 4)
        cropW := jsRound (s.width * MM_TO_PT * 4)
        cropH := jsRound (s.height * MM_TO_PT * 4)
        imgW := jsRound (s.width * MM_TO_PT * 4)
        imgH := jsRound (s.height * MM_TO_PT * 4)
        mime := "image/png" } :=
  extractRegionAsImage_ok pdfDoc pageNum s h

/-- C7, witness: capture geometry at a concrete input. -/
theorem c7_witness :
    validCapture demoDoc 1 srcA ∧
    extractRegionAsImage demoDoc 1 srcA = .ok
      { rasterW := ⌊demoDoc.pageWidthPt * 4⌋
        rasterH := ⌊demoDoc.pageHeightPt * 4⌋
        cropX := jsRound (srcA.x * MM_TO_PT * 4)
        cropY := jsRound (srcA.y * MM_TO_PT * 4)
        cropW := jsRound (srcA.width * MM_TO_PT * 4)
        cropH := jsRound (srcA.height * MM_TO_PT * 4)
        imgW := jsRound (srcA.width * MM_TO_PT * 4)
        imgH := jsRound (srcA.height * MM_TO_PT * 4)
        mime := "image/png" } :=
  ⟨validCapture_srcA, c7_capture_geometry demoDoc 1 srcA validCapture_srcA⟩

/-- C8, counterexample: with `pageNumber = 2` on a one-page document the call
fails with the renderer's generic invalid-page-request rejection; the code
defines no `PageIndexOutOfRange` error anywhere. -/
theorem c8_counterexample :
    processPdf demoDoc srcA dstA none 2 =
      { ops := [], err := some JsError.invalidPageRequest } := by
  have hex : extractRegionAsImage demoDoc 2 srcA = .error .invalidPageRequest := by
    simp only [extractRegionAsImage]
    rw [if_pos (Or.inr (by norm_num [demoDoc]))]
  simp only [processPdf, hex]

/-- C8, amended: a page number exceeding the page count makes the call fail,
with the renderer's generic invalid-page-request error rather than a
dedicated `PageIndexOutOfRange`, and before any writer operation. -/
theorem c8_page_out_of_range (pdfDoc : PdfDocModel) (s : RectMm) (d : PointMm)
    (cov : Option RectMm) (pageNum : ℕ) (h : pdfDoc.numPages < pageNum) :
    processPdf pdfDoc s d cov pageNum =
      { ops := [], err := some JsError.invalidPageRequest } :=
  processPdf_pageOutOfRange pdfDoc pageNum s d cov h

/-- C8, witness: the amended statement at a concrete out-of-range page. -/
theorem c8_page_out_of_range_witness :
    demoDoc.numPages < 2 ∧
    processPdf demoDoc srcA dstA none 2 =
      { ops := [], err := some JsError.invalidPageRequest } :=
  ⟨by norm_num [demoDoc],
   c8_page_out_of_range demoDoc srcA dstA none 2 (by norm_num [demoDoc])⟩

/-- C9: the writer draws the padded source white-out rectangle, and exactly
one additional white rectangle — at the cover rectangle's Y-flipped
point-space bounds with no padding — when and only when a cover rectangle
is supplied. -/
theorem c9_cover_whiteout (pdfDoc : PdfDocModel) (pageNum : ℕ) (s : RectMm)
    (d : PointMm) (cov : Option RectMm) (h : validCapture pdfDoc pageNum s) :
    (processPdf pdfDoc s d cov pageNum).ops.filter isDrawRectangle =
      WriterOp.drawRectangle (s.x * MM_TO_PT - 1)
          (pdfDoc.pageHeightPt - (s.y + s.height) * MM_TO_PT - 1)
          (s.width * MM_TO_PT + 2) (s.height * MM_TO_PT + 2) 1 1 1 0
        :: (match cov with
            | some c =>
              [WriterOp.drawRectangle (c.x * MM_TO_PT)
                (pdfDoc.pageHeightPt - (c.y + c.height) * MM_TO_PT)
                (c.width * MM_TO_PT) (c.height * MM_TO_PT) 1 1 1 0]
            | none => []) := by
  rw [processPdf_ok pdfDoc pageNum s d cov h]
  cases cov <;> simp [isDrawRectangle]

/-- C9, witness: cover white-out present at a concrete input with a cover. -/
theorem c9_witness :
    validCapture demoDoc 1 srcA ∧
    (processPdf demoDoc srcA dstA (some covA) 1).ops.filter isDrawRectangle =
      WriterOp.drawRectangle (srcA.x * MM_TO_PT - 1)
          (demoDoc.pageHeightPt - (srcA.y + srcA.height) * MM_TO_PT - 1)
          (srcA.width * MM_TO_PT + 2) (srcA.height * MM_TO_PT + 2) 1 1 1 0
        :: [WriterOp.drawRectangle (covA.x * MM_TO_PT)
            (demoDoc.pageHeightPt - (covA.y + covA.height) * MM_TO_PT)
            (covA.width * MM_TO_PT) (covA.height * MM_TO_PT) 1 1 1 0] :=
  ⟨validCapture_srcA, c9_cover_whiteout demoDoc 1 srcA dstA (some covA) validCapture_srcA⟩

/-! ## Batch claims -/

/-- Selector for download events in a batch trace. -/
def isDownload : BatchEvent → Bool
  | .download _ => true
  | .batchFailed _ => false

lemma procOk_iff {f : LoadedFile} : procOk f = true ↔ ∃ nm, processOne f = .ok nm := by
  unfold procOk
  cases h : processOne f <;> simp

lemma processOne_ok_name {f : LoadedFile} {nm : String} (h : processOne f = .ok nm) :
    nm = downloadName f.name := by
  unfold processOne at h
  split at h
  · split at h
    · exact absurd h (by simp)
    · simp at h
      exact h.symm
  · exact absurd h (by simp)

/-- The batch loop is sequential and fail-fast: if the first `k` ready files
succeed and the next one fails, the trace is exactly the `k` downloads in
list order followed by the single failure event. -/
lemma runBatch_failfast (l : List LoadedFile) : ∀ (k : ℕ) (hk : k < l.length),
    (∀ i (hi : i < k), procOk (l.get ⟨i, lt_trans hi hk⟩) = true) →
    ∀ (e : ProcError), processOne (l.get ⟨k, hk⟩) = .error e →
    runBatch l = (l.take k).map (fun f => BatchEvent.download (downloadName f.name))
      ++ [BatchEvent.batchFailed e] := by
  induction l with
  | nil => intro k hk _ e _; exact absurd hk (by simp)
  | cons f rest ih =>
    intro k hk hbefore e hfail
    cases k with
    | zero =>
      have hf : processOne f = .error e := hfail
      simp [runBatch, hf]
    | succ k =>
      have h0 : procOk f = true := hbefore 0 (Nat.succ_pos k)
      obtain ⟨nm, hnm⟩ := procOk_iff.mp h0
      have hk2 : k < rest.length := by simpa using hk
      have hfail2 : processOne (rest.get ⟨k, hk2⟩) = .error e := hfail
      have ihr := ih k hk2 (fun i hi => hbefore (i + 1) (Nat.succ_lt_succ hi)) e hfail2
      simp only [runBatch, hnm, List.take_succ_cons, List.map_cons, List.cons_append]
      rw [processOne_ok_name hnm, ihr]

/-- The first demo batch file: ready and processable. -/
def fileA : LoadedFile :=
  { name := "a.pdf", doc := demoDoc, sourceRect := some srcA,
    destPoint := some dstA, coverRect := none }

/-- The second demo batch file: ready, but its zero-width source rectangle
makes `processPdf` fail. -/
def fileB : LoadedFile :=
  { name := "b.pdf", doc := demoDoc, sourceRect := some srcZero,
    destPoint := some dstA, coverRect := none }

/-- The third demo batch file: ready and processable. -/
def fileC : LoadedFile :=
  { name := "c.pdf", doc := demoDoc, sourceRect := some srcA,
    destPoint := some dstA, coverRect := none }

/-- The demo batch: a succeeding file, a failing file, a succeeding file. -/
def demoBatch : List LoadedFile := [fileA, fileB, fileC]

lemma processOne_fileA : processOne fileA = .ok "a-moved_address.pdf" := by
  simp only [processOne, fileA]
  rw [processPdf_ok demoDoc 1 srcA dstA none validCapture_srcA]
  exact congrArg Except.ok (by decide)

lemma processOne_fileB : processOne fileB = .error (.js "b.pdf" .typeError) := by
  simp only [processOne, fileB]
  rw [processPdf_zeroSize demoDoc 1 srcZero dstA none (le_refl 1) (le_refl 1)
    (Or.inl rfl)]

lemma processOne_fileC : processOne fileC = .ok "c-moved_address.pdf" := by
  simp only [processOne, fileC]
  rw [processPdf_ok demoDoc 1 srcA dstA none validCapture_srcA]
  exact congrArg Except.ok (by decide)

/-- C5, counterexample: in a two-file batch whose first ready file fails,
the second ready file — which would itself process successfully — is never
processed: the trace holds only the failure event, contradicting the claim
that each document's failure leaves the rest of the batch processed. -/
theorem c5_counterexample :
    readyFiles [fileB, fileC] = [fileB, fileC] ∧
    procOk fileC = true ∧
    processAll [fileB, fileC] =
      [BatchEvent.batchFailed (ProcError.js "b.pdf" JsError.typeError)] := by
  refine ⟨rfl, ?_, ?_⟩
  · unfold procOk
    rw [processOne_fileC]
  · show runBatch (readyFiles [fileB, fileC]) = _
    rw [show readyFiles [fileB, fileC] = [fileB, fileC] from rfl]
    rw [show runBatch [fileB, fileC] =
        (match processOne fileB with
         | .ok nm => BatchEvent.download nm :: runBatch [fileC]
         | .error e => [.batchFailed e]) from rfl]
    rw [processOne_fileB]

/-- C5, amended: a processing failure aborts the batch rather than being
skipped over: when the first `k` ready files succeed and the next fails,
exactly `k` downloads happen and the final event is the failure report —
no ready file after the failing one is processed. -/
theorem c5_failure_aborts_batch (files : List LoadedFile) (k : ℕ)
    (hk : k < (readyFiles files).length)
    (hbefore : ∀ i (hi : i < k), procOk ((readyFiles files).get ⟨i, lt_trans hi hk⟩) = true)
    (e : ProcError) (hfail : processOne ((readyFiles files).get ⟨k, hk⟩) = .error e) :
    (processAll files).countP isDownload = k ∧
    (processAll files).getLast? = some (BatchEvent.batchFailed e) := by
  have h : processAll files = ((readyFiles files).take k).map
      (fun f => BatchEvent.download (downloadName f.name))
      ++ [BatchEvent.batchFailed e] :=
    runBatch_failfast (readyFiles files) k hk hbefore e hfail
  rw [h]
  constructor
  · rw [List.countP_append, List.countP_map]
    have h1 : (isDownload ∘ fun f : LoadedFile => BatchEvent.download (downloadName f.name))
        = fun _ => true := by
      funext f
      simp [isDownload, Function.comp]
    rw [h1, List.countP_true, List.length_take]
    have h2 : min k (readyFiles files).length = k := by omega
    rw [h2]
    simp [isDownload, List.countP_cons]
  · rw [List.getLast?_concat]

/-- C5, witness: amended statement on the demo batch, failing at index 1. -/
theorem c5_witness :
    1 < (readyFiles demoBatch).length ∧
    (processAll demoBatch).countP isDownload = 1 ∧
    (processAll demoBatch).getLast? =
      some (BatchEvent.batchFailed (ProcError.js "b.pdf" JsError.typeError)) := by
  have hk : 1 < (readyFiles demoBatch).length := by decide
  have hbefore : ∀ i (hi : i < 1),
      procOk ((readyFiles demoBatch).get ⟨i, lt_trans hi hk⟩) = true := by
    intro i hi
    have h0 : i = 0 := by omega
    subst h0
    show procOk fileA = true
    unfold procOk
    rw [processOne_fileA]
  have hfail : processOne ((readyFiles demoBatch).get ⟨1, hk⟩) =
      .error (.js "b.pdf" .typeError) := processOne_fileB
  exact ⟨hk, c5_failure_aborts_batch demoBatch 1 hk hbefore _ hfail⟩

/-- C6: batch processing is sequential in list order and fail-fast — when
the first `k` ready files succeed and the `k`-th (0-indexed) fails, the
user-visible trace is exactly the downloads of the first `k` ready files,
in order, followed by the failure report, and nothing else. -/
theorem c6_batch_sequential_failfast (files : List LoadedFile) (k : ℕ)
    (hk : k < (readyFiles files).length)
    (hbefore : ∀ i (hi : i < k), procOk ((readyFiles files).get ⟨i, lt_trans hi hk⟩) = true)
    (e : ProcError) (hfail : processOne ((readyFiles files).get ⟨k, hk⟩) = .error e) :
    processAll files =
      ((readyFiles files).take k).map (fun f => BatchEvent.download (downloadName f.name))
        ++ [BatchEvent.batchFailed e] :=
  runBatch_failfast (readyFiles files) k hk hbefore e hfail

/-- C6, witness: on the demo batch the first file's download happens before
the second file's failure is reported, and the third file is not
processed. -/
theorem c6_witness :
    (readyFiles demoBatch).length = 3 ∧
    processAll demoBatch =
      [BatchEvent.download "a-moved_address.pdf",
       BatchEvent.batchFailed (ProcError.js "b.pdf" JsError.typeError)] := by
  have hk : 1 < (readyFiles demoBatch).length := by decide
  have hbefore : ∀ i (hi : i < 1),
      procOk ((readyFiles demoBatch).get ⟨i, lt_trans hi hk⟩) = true := by
    intro i hi
    have h0 : i = 0 := by omega
    subst h0
    show procOk fileA = true
    unfold procOk
    rw [processOne_fileA]
  have hfail : processOne ((readyFiles demoBatch).get ⟨1, hk⟩) =
      .error (.js "b.pdf" .typeError) := processOne_fileB
  have h := c6_batch_sequential_failfast demoBatch 1 hk hbefore _ hfail
  refine ⟨rfl, ?_⟩
  rw [h]
  decide

/-! ## Gesture claim -/

lemma pxToMm_nonneg {scale px : ℚ} (hs : 0 < scale) (hpx : 0 ≤ px) :
    0 ≤ pxToMm scale px := by
  unfold pxToMm
  have hq : (0 : ℚ) ≤ px / scale * PT_TO_MM * 10 := by
    have h1 : (0 : ℚ) ≤ px / scale := div_nonneg hpx hs.le
    have h2 : (0 : ℚ) ≤ PT_TO_MM := by norm_num [PT_TO_MM]
    positivity
  have hz : (0 : ℤ) ≤ jsRound (px / scale * PT_TO_MM * 10) := jsRound_nonneg hq
  have hc : (0 : ℚ) ≤ (jsRound (px / scale * PT_TO_MM * 10) : ℚ) := by exact_mod_cast hz
  linarith

lemma pxToMm_pos {scale px : ℚ} (hs : 0 < scale) (hs2 : scale ≤ 2) (hpx : 10 < px) :
    0 < pxToMm scale px := by
  unfold pxToMm
  have h5 : (5 : ℚ) < px / scale := by
    rw [lt_div_iff₀ hs]
    nlinarith
  have hq : (1 : ℚ) / 2 ≤ px / scale * PT_TO_MM * 10 := by
    norm_num [PT_TO_MM]
    nlinarith
  have hz : 0 < jsRound (px / scale * PT_TO_MM * 10) := jsRound_pos hq
  have hc : (1 : ℚ) ≤ (jsRound (px / scale * PT_TO_MM * 10) : ℚ) := by exact_mod_cast hz
  linarith

/-- When a draw gesture with corner points inside the canvas emits a
rectangle, that rectangle satisfies the data model's precondition. -/
lemma onDrawUp_emit_bounds {scale : ℚ} (hs : 0 < scale) (hs2 : scale ≤ 2)
    {p q : ℚ × ℚ} (hp1 : 0 ≤ p.1) (hp2 : 0 ≤ p.2) (hq1 : 0 ≤ q.1) (hq2 : 0 ≤ q.2)
    {r : RectMm} (h : onDrawUp scale p q = some r) :
    0 ≤ r.x ∧ 0 ≤ r.y ∧ 0 < r.width ∧ 0 < r.height := by
  simp only [onDrawUp] at h
  split at h
  case isTrue hc =>
    injection h with h
    subst h
    exact ⟨pxToMm_nonneg hs (le_min hp1 hq1),
           pxToMm_nonneg hs (le_min hp2 hq2),
           pxToMm_pos hs hs2 (by linarith [hc.1]),
           pxToMm_pos hs hs2 (by linarith [hc.2])⟩
  case isFalse hc => exact absurd h (by simp)

/-- C10: with the render scale produced by `render`/`renderPageToCanvas`
(positive and capped at 2) and mouse coordinates clamped by `canvasCoords`,
a completed draw gesture emits a source rectangle only when the drawn pixel
region exceeds 10 px in both dimensions, and every emitted rectangle has
`x ≥ 0`, `y ≥ 0` and strictly positive width and height in millimeters. -/
theorem c10_gesture_emits_valid_rect (clientWidth baseWidthPt : ℚ)
    (hbase : 0 < baseWidthPt)
    (e1x e1y e2x e2y rLeft rTop rWidth rHeight : ℚ) :
    (∀ r, onDrawUp (renderScale (previewMaxWidth clientWidth) baseWidthPt)
        (canvasCoords e1x e1y rLeft rTop rWidth rHeight)
        (canvasCoords e2x e2y rLeft rTop rWidth rHeight) = some r →
        0 ≤ r.x ∧ 0 ≤ r.y ∧ 0 < r.width ∧ 0 < r.height) ∧
    (∀ p q : ℚ × ℚ,
        (max p.1 q.1 - min p.1 q.1 ≤ 10 ∨ max p.2 q.2 - min p.2 q.2 ≤ 10) →
        onDrawUp (renderScale (previewMaxWidth clientWidth) baseWidthPt) p q = none) := by
  have h400 : (400 : ℚ) ≤ previewMaxWidth clientWidth := le_max_left _ _
  have hspos : 0 < renderScale (previewMaxWidth clientWidth) baseWidthPt :=
    lt_min (div_pos (by linarith) hbase) (by norm_num)
  have hsle : renderScale (previewMaxWidth clientWidth) baseWidthPt ≤ 2 :=
    min_le_right _ _
  constructor
  · intro r hr
    exact onDrawUp_emit_bounds hspos hsle
      (le_max_left 0 _) (le_max_left 0 _) (le_max_left 0 _) (le_max_left 0 _) hr
  · intro p q hle
    unfold onDrawUp
    rw [if_neg]
    rintro ⟨h1, h2⟩
    rcases hle with h | h <;> linarith

/-- The rectangle emitted by the concrete demo gesture below. -/
def demoRect : RectMm := { x := 131/5, y := 131/5, width := 105/2, height := 131/5 }

lemma demoGesture_eq :
    onDrawUp (renderScale (previewMaxWidth 840) 595)
      (canvasCoords 100 100 0 0 800 1132) (canvasCoords 300 200 0 0 800 1132) =
      some demoRect := by
  have hscale : renderScale (previewMaxWidth 840) 595 = 160/119 := by
    norm_num [renderScale, previewMaxWidth, min_def, max_def]
  have hc1 : canvasCoords 100 100 0 0 800 1132 = (100, 100) := by
    norm_num [canvasCoords, min_def, max_def]
  have hc2 : canvasCoords 300 200 0 0 800 1132 = (300, 200) := by
    norm_num [canvasCoords, min_def, max_def]
  rw [hscale, hc1, hc2]
  have hx : pxToMm (160/119) 100 = 131/5 := by
    unfold pxToMm
    rw [jsRound_eq _ 262 (by norm_num [PT_TO_MM]) (by norm_num [PT_TO_MM])]
    norm_num
  have hw : pxToMm (160/119) 200 = 105/2 := by
    unfold pxToMm
    rw [jsRound_eq _ 525 (by norm_num [PT_TO_MM]) (by norm_num [PT_TO_MM])]
    norm_num
  simp only [onDrawUp]
  rw [if_pos (by norm_num [min_def, max_def])]
  norm_num [min_def, max_def]
  rw [hx, hw]
  rfl

/-- C10, witness: a concrete 200 px × 100 px gesture at render scale 160/119
emits the rectangle (26.2, 26.2, 52.5, 26.2) mm, which satisfies the data
model's precondition. -/
theorem c10_witness :
    (0 : ℚ) < 595 ∧
    onDrawUp (renderScale (previewMaxWidth 840) 595)
      (canvasCoords 100 100 0 0 800 1132) (canvasCoords 300 200 0 0 800 1132) =
      some demoRect ∧
    (0 ≤ demoRect.x ∧ 0 ≤ demoRect.y ∧ 0 < demoRect.width ∧ 0 < demoRect.height) :=
  ⟨by norm_num, demoGesture_eq,
   (c10_gesture_emits_valid_rect 840 595 (by norm_num)
      100 100 300 200 0 0 800 1132).1 demoRect demoGesture_eq⟩

end AddressMover
